import Mathlib

/-!
# Verification of the wifi station manager (`modules/lib/wifi/station.py`)

Shallow embedding of the station connection manager and the utility
functions it uses (`modules/lib/tools/useful.py`).

Modelling conventions:
* MicroPython byte sequences carried by the config (`b""` literals) only
  ever hold UTF-8 text here, so they are modelled as `String`;
  `useful.tobytes` / `useful.tostrings` become the identity.
* The radio driver `Station.wlan` is modelled by the `Wlan` structure.
  Its `isconnected()` query is a stateful observation: the driver carries
  a schedule `isconnSeq : Nat → Bool` and a counter `queries` of calls made,
  and each call reads the schedule at the counter and increments it.
  `sleep(0.5)` calls, `connect(...)` calls, `ifconfig(tuple)` setter calls
  and `scan()` calls are recorded in the driver state so that theorems can
  speak about how often the code invoked them.
* Python code paths that dereference an absent (`None`) handle raise
  `AttributeError`; such operations are embedded in `Except Unit`, with
  `Except.error ()` standing for the raised exception.
-/

/-- `useful.tobytes` on the textual data handled here: identity. -/
def tobytes (s : String) : String := s

/-- `useful.tostrings` on the textual data handled here: identity. -/
def tostrings (s : String) : String := s

/-- The 4-tuple returned by the driver's `ifconfig()` getter:
`(ip, netmask, gateway, dns)`. -/
structure IfConfig where
  ip : String
  netmask : String
  gateway : String
  dns : String
deriving DecidableEq

/-- One network tuple `(ssid, bssid, channel, rssi, authmode, hidden)` as
returned by the driver's `scan()`. -/
structure Net where
  ssid : String
  bssid : String
  channel : Nat
  rssi : Int
  authmode : Nat
  hidden : Bool
deriving DecidableEq

/-- Insert `x` into an already descending-by-`rssi` list, placing `x`
before the first element whose `rssi` is not larger than `x`'s.  Elements
skipped over have strictly larger `rssi`, so among equal keys an inserted
(earlier-in-input) element always comes first. -/
def insertDesc (x : Net) : List Net → List Net
  | [] => [x]
  | y :: ys => if y.rssi ≤ x.rssi then x :: y :: ys else y :: insertDesc x ys

/-- The semantics of Python's
`sorted(networks, key=lambda x: x[3], reverse=True)`:
the stable sort of the list in descending `rssi` order (Python's `sorted`
is stable, and `reverse=True` preserves the original order of elements
that compare equal). -/
def sortDesc (l : List Net) : List Net := l.foldr insertDesc []

/-- The radio driver handle (`network.WLAN(STA_IF)` object). -/
structure Wlan where
  /-- the driver's active flag, toggled by `active(True/False)` -/
  activeFlag : Bool
  /-- connectivity schedule: result of the n-th `isconnected()` call -/
  isconnSeq : Nat → Bool
  /-- how many `isconnected()` calls have been made -/
  queries : Nat
  /-- how many `sleep(0.5)` calls the polling loop has made -/
  sleeps : Nat
  /-- arguments of the `connect(ssid, password)` calls made so far -/
  connectCalls : List (String × String)
  /-- the driver's current interface address configuration -/
  ifcfg : IfConfig
  /-- arguments of the `ifconfig(tuple)` setter calls made so far -/
  setCalls : List IfConfig
  /-- the list of networks the driver reports on `scan()` -/
  scanResult : List Net
  /-- how many times `scan()` has been invoked on the driver -/
  scanCalls : Nat

/-- One `isconnected()` driver query: read the schedule at the call
counter and advance the counter. -/
def Wlan.isconnected (w : Wlan) : Bool × Wlan :=
  (w.isconnSeq w.queries, { w with queries := w.queries + 1 })

/-- The polling loop of `Station.connect`:
`while not isconnected(): sleep(0.5); count += 1; if count > 120: break`.
The source's `count` starts at 0 and the loop breaks right after the
increment makes `count` exceed 120, i.e. after the 121st sleep; here `r`
carries the remaining iteration budget, `r = 121 - count`, so the loop is
entered with `r = 121`.  Reaching `r = 0` is the `break`, which exits
without a further guard query. -/
def Wlan.connectLoop : Nat → Wlan → Wlan
  | 0, w => w
  | r + 1, w =>
    let (c, w) := w.isconnected
    if c then w
    else Wlan.connectLoop r { w with sleeps := w.sleeps + 1 }

/-- `StationConfig` (`station.py` lines 8-18).  Field order as in the
source constructor. -/
structure StationConfig where
  activated : Bool
  wifipassword : String
  ssid : String
  ipaddress : String
  netmask : String
  gateway : String
  dns : String
deriving DecidableEq

/-- Python's `"%s" % bool` rendering. -/
def pyBoolStr (b : Bool) : String := if b then "True" else "False"

/-- `StationConfig.__repr__` (lines 20-33): renders the driver's live
`ifconfig()` values, then the ssid and the activated flag.  The password
line is commented out in the source. -/
def StationConfig.reprStr (w : Wlan) (c : StationConfig) : String :=
  "StationConfig:\n"
    ++ ("   Ip address :" ++ (w.ifcfg.ip
    ++ ("\n   Netmask    :" ++ (w.ifcfg.netmask
    ++ ("\n   Gateway    :" ++ (w.ifcfg.gateway
    ++ ("\n   Dns        :" ++ (w.ifcfg.dns
    ++ ("\n   Ssid       :" ++ (tostrings c.ssid
    ++ ("\n   Activated  :" ++ (pyBoolStr c.activated
    ++ "\n"))))))))))))

/-- Python's `str.split(".")` on the character list of the string: cut at
every `'.'`, keeping empty components. -/
def splitDot : List Char → List (List Char)
  | [] => [[]]
  | c :: cs =>
    let rest := splitDot cs
    if c = '.' then [] :: rest
    else
      match rest with
      | [] => [[c]]
      | h :: t => (c :: h) :: t

/-- Python's `int(component)` on a decimal digit string (the form address
components take): `none` when empty or containing a non-digit, which in
Python raises `ValueError`. -/
def decDigits : List Char → Option Nat
  | [] => none
  | l => l.foldl (fun acc c =>
      match acc with
      | none => none
      | some n => if c.isDigit then some (n * 10 + (c.toNat - 48)) else none)
      (some 0)

/-- `useful.iptoint`: split on `"."`, parse the first four components and
combine them big-endian.  Python raises (`IndexError`/`ValueError`) when
there are fewer than four components or a component is not a number;
those cases are `none`. -/
def iptoint (ipaddr : String) : Option Nat :=
  match splitDot ipaddr.data with
  | a :: b :: c :: d :: _ =>
    match decDigits a, decDigits b, decDigits c, decDigits d with
    | some a, some b, some c, some d =>
      some ((a <<< 24) + ((b <<< 16) + ((c <<< 8) + d)))
    | _, _, _, _ => none
  | _ => none

/-- `useful.issameinterface`: convert the three addresses and compare the
masked interface parts; `none` when a conversion raises. -/
def issameinterface (ipaddr ipinterface maskinterface : String) : Option Bool :=
  match iptoint ipaddr, iptoint ipinterface, iptoint maskinterface with
  | some a, some i, some m => some (if a &&& m = i &&& m then true else false)
  | _, _, _ => none

/-- The class-level state of `Station`: `wlan`, `config`, `networks`
(lines 52-54).  `wlan` and `config` start as `None`. -/
structure StationState where
  wlan : Option Wlan
  config : Option StationConfig
  networks : List (String × Nat × Nat)

namespace Station

/-- `Station.isActive` (lines 92-97). -/
def isActive (s : StationState) : Bool :=
  match s.wlan with
  | none => false
  | some w => w.activeFlag

/-- `Station.configure` (lines 99-128) on a bound manager
(`Station.config = cfg`, `Station.wlan = w`), the state in which the
source ever runs it.  Three passes over the four fields: parameter
overrides, live-driver fallback for empty fields, `"0.0.0.0"` sentinel
normalization; each source statement touches exactly one field, so the
sequential assignments are written as one record update per pass.  The
final push happens iff all four resolved fields are non-empty. -/
def configure (pip pnm pgw pdns : Option String) (cfg : StationConfig) (w : Wlan) :
    StationConfig × Wlan :=
  let cfg :=
    { cfg with
      ipaddress := match pip with | some v => tobytes v | none => cfg.ipaddress
      netmask := match pnm with | some v => tobytes v | none => cfg.netmask
      gateway := match pgw with | some v => tobytes v | none => cfg.gateway
      dns := match pdns with | some v => tobytes v | none => cfg.dns }
  let cfg :=
    { cfg with
      ipaddress := if cfg.ipaddress = "" then tobytes w.ifcfg.ip else cfg.ipaddress
      netmask := if cfg.netmask = "" then tobytes w.ifcfg.netmask else cfg.netmask
      gateway := if cfg.gateway = "" then tobytes w.ifcfg.gateway else cfg.gateway
      dns := if cfg.dns = "" then tobytes w.ifcfg.dns else cfg.dns }
  let cfg :=
    { cfg with
      ipaddress := if cfg.ipaddress = "0.0.0.0" then "" else cfg.ipaddress
      netmask := if cfg.netmask = "0.0.0.0" then "" else cfg.netmask
      gateway := if cfg.gateway = "0.0.0.0" then "" else cfg.gateway
      dns := if cfg.dns = "0.0.0.0" then "" else cfg.dns }
  if cfg.ipaddress ≠ "" ∧ cfg.netmask ≠ "" ∧ cfg.gateway ≠ "" ∧ cfg.dns ≠ "" then
    let assignment : IfConfig :=
      ⟨tostrings cfg.ipaddress, tostrings cfg.netmask,
        tostrings cfg.gateway, tostrings cfg.dns⟩
    (cfg, { w with ifcfg := assignment, setCalls := w.setCalls ++ [assignment] })
  else
    (cfg, w)

/-- `Station.connect` (lines 56-83).  A `None` dereference
(`Station.config` when a parameter is given or when the driver `connect`
call reads the stored ssid/password; `Station.wlan` for the queries) is
`Except.error ()`. -/
def connect (ssid password : Option String) (s : StationState) :
    Except Unit (Bool × StationState) := do
  let s ←
    match ssid with
    | none => pure s
    | some v =>
      match s.config with
      | none => throw ()
      | some c => pure { s with config := some { c with ssid := v } }
  let s ←
    match password with
    | none => pure s
    | some v =>
      match s.config with
      | none => throw ()
      | some c => pure { s with config := some { c with wifipassword := v } }
  let w ←
    match s.wlan with
    | none => throw ()
    | some w => pure w
  let (c0, w) := w.isconnected
  if c0 then
    pure (true, { s with wlan := some w })
  else
    let w := { w with activeFlag := true }
    let c ←
      match s.config with
      | none => throw ()
      | some c => pure c
    let w :=
      { w with connectCalls :=
          w.connectCalls ++ [(tobytes c.ssid, tobytes c.wifipassword)] }
    let w := Wlan.connectLoop 121 w
    let (cf, w) := w.isconnected
    if cf then
      pure (true, { s with wlan := some w })
    else
      pure (false, { s with wlan := some { w with activeFlag := false } })

/-- `Station.isConnected` (lines 136-139): an unconditional
`Station.wlan.isconnected()` dereference. -/
def isConnected (s : StationState) : Except Unit (Bool × StationState) :=
  match s.wlan with
  | none => throw ()
  | some w =>
    let (b, w) := w.isconnected
    pure (b, { s with wlan := some w })

/-- `Station.scan` (lines 141-149): rescan when forced or when the cached
list is empty, sorting the fresh driver list by descending signal
strength and projecting to `(ssid, channel, authmode)`. -/
def scan (force : Bool) (s : StationState) :
    Except Unit (List (String × Nat × Nat) × StationState) :=
  if force || s.networks.length == 0 then
    match s.wlan with
    | none => throw ()
    | some w =>
      let nets := w.scanResult
      let w := { w with scanCalls := w.scanCalls + 1 }
      let projected := (sortDesc nets).map fun n => (n.ssid, n.channel, n.authmode)
      pure (projected, { s with wlan := some w, networks := projected })
  else
    pure (s.networks, s)

/-- `Station.getInfo` (lines 130-134). -/
def getInfo (s : StationState) : Option IfConfig × StationState :=
  match s.wlan with
  | none => (none, s)
  | some w =>
    let (b, w) := w.isconnected
    if b then (some w.ifcfg, { s with wlan := some w })
    else (none, { s with wlan := some w })

/-- `Station.isIpOnInterface` (lines 186-192). -/
def isIpOnInterface (ipAddr : String) (s : StationState) :
    Except Unit (Bool × StationState) :=
  let (info, s) := getInfo s
  match info with
  | some ifc =>
    match issameinterface (tostrings ipAddr) ifc.ip ifc.netmask with
    | some b => pure (b, s)
    | none => throw ()
  | none => pure (false, s)

/-- `Station.start` (lines 151-178).  The environment supplies the
configuration-store result (`loadResult`, `none` when `config.load()`
fails) and the fresh driver handle built by `WLAN(STA_IF)`.  `result`
is set to true after the connection attempt whatever its outcome. -/
def start (force : Bool) (loadResult : Option StationConfig) (freshWlan : Wlan)
    (s : StationState) : Except Unit (Bool × StationState) :=
  if isActive s = false then
    match loadResult with
    | none => pure (false, s)
    | some config =>
      if config.activated || force then
        let cw := configure none none none none config freshWlan
        let s := { s with wlan := some cw.2, config := some cw.1, networks := [] }
        match connect none none s with
        | .ok (_, s2) => pure (true, s2)
        | .error e => throw e
      else
        pure (false, s)
  else
    pure (true, s)

end Station

/-! ## Properties of the stable descending sort -/

theorem insertDesc_perm (x : Net) (l : List Net) : (insertDesc x l).Perm (x :: l) := by
  induction l with
  | nil => exact List.Perm.refl _
  | cons y ys ih =>
    simp only [insertDesc]
    split
    · exact List.Perm.refl _
    · exact (ih.cons y).trans (List.Perm.swap x y ys)

theorem insertDesc_mem {a x : Net} {l : List Net} (h : a ∈ insertDesc x l) :
    a = x ∨ a ∈ l := by
  have := (insertDesc_perm x l).mem_iff.mp h
  simpa using this

theorem insertDesc_pairwise {x : Net} {l : List Net}
    (h : l.Pairwise fun a b => b.rssi ≤ a.rssi) :
    (insertDesc x l).Pairwise fun a b => b.rssi ≤ a.rssi := by
  induction l with
  | nil => simp [insertDesc]
  | cons y ys ih =>
    rcases List.pairwise_cons.mp h with ⟨hy, hys⟩
    simp only [insertDesc]
    split
    case isTrue hxy =>
      refine List.pairwise_cons.mpr ⟨?_, h⟩
      intro b hb
      rcases List.mem_cons.mp hb with rfl | hb
      · exact hxy
      · exact le_trans (hy b hb) hxy
    case isFalse hxy =>
      refine List.pairwise_cons.mpr ⟨?_, ih hys⟩
      intro b hb
      rcases insertDesc_mem hb with rfl | hb
      · omega
      · exact hy b hb

theorem insertDesc_filter (k : Int) (x : Net) (l : List Net) :
    (insertDesc x l).filter (fun n => n.rssi == k)
      = if x.rssi = k then x :: l.filter (fun n => n.rssi == k)
        else l.filter (fun n => n.rssi == k) := by
  induction l with
  | nil =>
    by_cases hx : x.rssi = k <;> simp [insertDesc, List.filter_cons, hx]
  | cons y ys ih =>
    simp only [insertDesc]
    split
    case isTrue hxy =>
      by_cases hx : x.rssi = k <;> by_cases hy : y.rssi = k <;>
        simp [List.filter_cons, hx, hy]
    case isFalse hxy =>
      by_cases hx : x.rssi = k <;> by_cases hy : y.rssi = k
      · exfalso; omega
      · simp [List.filter_cons, ih, hx, hy]
      · simp [List.filter_cons, ih, hx, hy]
      · simp [List.filter_cons, ih, hx, hy]

theorem sortDesc_perm (l : List Net) : (sortDesc l).Perm l := by
  induction l with
  | nil => exact List.Perm.refl _
  | cons x xs ih => exact (insertDesc_perm x (sortDesc xs)).trans (ih.cons x)

theorem sortDesc_pairwise (l : List Net) :
    (sortDesc l).Pairwise fun a b => b.rssi ≤ a.rssi := by
  induction l with
  | nil => simp [sortDesc]
  | cons x xs ih => exact insertDesc_pairwise ih

theorem sortDesc_filter (k : Int) (l : List Net) :
    (sortDesc l).filter (fun n => n.rssi == k) = l.filter (fun n => n.rssi == k) := by
  induction l with
  | nil => rfl
  | cons x xs ih =>
    show (insertDesc x (sortDesc xs)).filter (fun n => n.rssi == k) = _
    rw [insertDesc_filter]
    simp only [ih]
    by_cases hx : x.rssi = k <;> simp [List.filter_cons, hx]

/-! ## The polling loop on a never-connecting driver -/

theorem connectLoop_never (r : Nat) (w : Wlan) (h : ∀ n, w.isconnSeq n = false) :
    Wlan.connectLoop r w = { w with queries := w.queries + r, sleeps := w.sleeps + r } := by
  induction r generalizing w with
  | zero => simp [Wlan.connectLoop]
  | succ r ih =>
    simp only [Wlan.connectLoop, Wlan.isconnected, h]
    rw [if_neg Bool.false_ne_true]
    rw [ih { w with queries := w.queries + 1, sleeps := w.sleeps + 1 } (fun n => h n)]
    dsimp only
    congr 1 <;> omega

/-! ## Resolution of one address field in `configure` -/

/-- The per-field resolution `configure` actually performs (the three
passes of lines 102-115 restricted to one field): parameter override,
then live-driver fallback for an empty value, then `"0.0.0.0"`-to-empty
normalization. -/
def resolveField (param : Option String) (stored live : String) : String :=
  let v := match param with | some p => tobytes p | none => stored
  let v := if v = "" then tobytes live else v
  if v = "0.0.0.0" then "" else v

/-- The configuration after `configure`'s three resolution passes. -/
def resolveConfig (pip pnm pgw pdns : Option String) (cfg : StationConfig) (w : Wlan) :
    StationConfig :=
  { cfg with
    ipaddress := resolveField pip cfg.ipaddress w.ifcfg.ip
    netmask := resolveField pnm cfg.netmask w.ifcfg.netmask
    gateway := resolveField pgw cfg.gateway w.ifcfg.gateway
    dns := resolveField pdns cfg.dns w.ifcfg.dns }

/-- `configure` resolves each field independently via `resolveField`. -/
theorem configure_fst (pip pnm pgw pdns : Option String) (cfg : StationConfig) (w : Wlan) :
    (Station.configure pip pnm pgw pdns cfg w).1 = resolveConfig pip pnm pgw pdns cfg w := by
  simp only [Station.configure, apply_ite Prod.fst, ite_self]
  rfl

/-- `configure` pushes the resolved assignment to the driver exactly when
all four resolved fields are non-empty, and leaves the driver untouched
otherwise. -/
theorem configure_snd (pip pnm pgw pdns : Option String) (cfg : StationConfig) (w : Wlan) :
    (Station.configure pip pnm pgw pdns cfg w).2 =
      (if (resolveConfig pip pnm pgw pdns cfg w).ipaddress ≠ ""
          ∧ (resolveConfig pip pnm pgw pdns cfg w).netmask ≠ ""
          ∧ (resolveConfig pip pnm pgw pdns cfg w).gateway ≠ ""
          ∧ (resolveConfig pip pnm pgw pdns cfg w).dns ≠ "" then
        { w with
          ifcfg :=
            ⟨(resolveConfig pip pnm pgw pdns cfg w).ipaddress,
              (resolveConfig pip pnm pgw pdns cfg w).netmask,
              (resolveConfig pip pnm pgw pdns cfg w).gateway,
              (resolveConfig pip pnm pgw pdns cfg w).dns⟩,
          setCalls := w.setCalls ++
            [⟨(resolveConfig pip pnm pgw pdns cfg w).ipaddress,
              (resolveConfig pip pnm pgw pdns cfg w).netmask,
              (resolveConfig pip pnm pgw pdns cfg w).gateway,
              (resolveConfig pip pnm pgw pdns cfg w).dns⟩] }
      else w) := by
  simp only [Station.configure, apply_ite Prod.snd]
  rfl


/-! ## `connect` on a bound manager -/

/-- On a driver that never reports connected, `connect()` with no
arguments makes 123 `isconnected()` queries (1 before the loop, 121 loop
guards, 1 after), sleeps 121 times, records one driver `connect` call,
deactivates the driver and returns false. -/
theorem connect_never (s : StationState) (w : Wlan) (cfg : StationConfig)
    (hw : s.wlan = some w) (hc : s.config = some cfg)
    (hnever : ∀ n, w.isconnSeq n = false) :
    Station.connect none none s =
      .ok (false,
        { s with wlan := some (
          { w with
            queries := w.queries + 123
            sleeps := w.sleeps + 121
            activeFlag := false
            connectCalls :=
              w.connectCalls ++ [(tobytes cfg.ssid, tobytes cfg.wifipassword)] }) }) := by
  simp only [Station.connect, hw, hc, pure_bind, Wlan.isconnected, hnever]
  rw [if_neg Bool.false_ne_true]
  rw [connectLoop_never 121
      { w with
        queries := w.queries + 1
        activeFlag := true
        connectCalls := w.connectCalls ++ [(tobytes cfg.ssid, tobytes cfg.wifipassword)] }
      (fun n => hnever n)]
  dsimp only
  simp only [hnever]
  rw [if_neg Bool.false_ne_true]
  norm_num [Nat.add_assoc]
  rfl

/-- On a bound manager (`wlan` and `config` both set), `connect()` with no
arguments never raises: it returns a boolean with the driver still bound. -/
theorem connect_bound (s : StationState) (w : Wlan) (cfg : StationConfig)
    (hw : s.wlan = some w) (hc : s.config = some cfg) :
    ∃ b w2, Station.connect none none s = .ok (b, { s with wlan := some w2 }) := by
  simp only [Station.connect, hw, hc, pure_bind, Wlan.isconnected]
  by_cases h0 : w.isconnSeq w.queries = true
  · rw [if_pos h0]
    exact ⟨true, _, rfl⟩
  · rw [if_neg h0]
    by_cases hf :
        (Wlan.connectLoop 121
          { w with
            queries := w.queries + 1
            activeFlag := true
            connectCalls := w.connectCalls ++
              [(tobytes cfg.ssid, tobytes cfg.wifipassword)] }).isconnSeq
          (Wlan.connectLoop 121
            { w with
              queries := w.queries + 1
              activeFlag := true
              connectCalls := w.connectCalls ++
                [(tobytes cfg.ssid, tobytes cfg.wifipassword)] }).queries = true
    · rw [if_pos hf]
      exact ⟨true, _, rfl⟩
    · rw [if_neg hf]
      exact ⟨false, _, rfl⟩

/-! ## Claims -/

/-- The per-field resolution rule exactly as the specification states it:
the explicit parameter if one was provided; else the stored value if it
is non-empty and not `"0.0.0.0"`; else the live driver value; finally a
resolved `"0.0.0.0"` is normalized to empty. -/
def claimResolveField (param : Option String) (stored live : String) : String :=
  let v :=
    match param with
    | some p => p
    | none => if stored ≠ "" ∧ stored ≠ "0.0.0.0" then stored else live
  if v = "0.0.0.0" then "" else v

/-- A stored configuration whose gateway holds the `"0.0.0.0"` sentinel. -/
def cfgStoredZeroGw : StationConfig :=
  { activated := true, wifipassword := "pw", ssid := "home",
    ipaddress := "192.168.1.5", netmask := "255.255.255.0",
    gateway := "0.0.0.0", dns := "8.8.8.8" }

/-- A bound driver whose live interface has a real gateway. -/
def wlanLiveGw : Wlan :=
  { activeFlag := true, isconnSeq := fun _ => true, queries := 0, sleeps := 0,
    connectCalls := [],
    ifcfg := ⟨"192.168.1.7", "255.255.255.0", "192.168.1.254", "9.9.9.9"⟩,
    setCalls := [], scanResult := [], scanCalls := 0 }

/-- C1 counterexample: with a stored gateway of `"0.0.0.0"` and no
parameter, `configure` resolves the gateway to empty, whereas the claim's
resolution rule demands the live driver gateway `"192.168.1.254"`. -/
theorem c1_counterexample_stored_sentinel :
    (Station.configure none none none none cfgStoredZeroGw wlanLiveGw).1.gateway = ""
      ∧ claimResolveField none cfgStoredZeroGw.gateway wlanLiveGw.ifcfg.gateway
          = "192.168.1.254"
      ∧ (Station.configure none none none none cfgStoredZeroGw wlanLiveGw).1.gateway
          ≠ claimResolveField none cfgStoredZeroGw.gateway wlanLiveGw.ifcfg.gateway := by
  refine ⟨by decide, by decide, by decide⟩

/-- C1 (amended): each of the four fields is resolved independently as:
parameter override if provided, then live-driver fallback if the stored
value is empty, then `"0.0.0.0"`-to-empty normalization.  In particular a
stored `"0.0.0.0"` with no parameter resolves to empty without consulting
the driver, and an explicitly passed empty parameter falls through to the
live driver value. -/
theorem c1_amended_resolution (pip pnm pgw pdns : Option String)
    (cfg : StationConfig) (w : Wlan) :
    (Station.configure pip pnm pgw pdns cfg w).1.ipaddress
        = resolveField pip cfg.ipaddress w.ifcfg.ip
      ∧ (Station.configure pip pnm pgw pdns cfg w).1.netmask
        = resolveField pnm cfg.netmask w.ifcfg.netmask
      ∧ (Station.configure pip pnm pgw pdns cfg w).1.gateway
        = resolveField pgw cfg.gateway w.ifcfg.gateway
      ∧ (Station.configure pip pnm pgw pdns cfg w).1.dns
        = resolveField pdns cfg.dns w.ifcfg.dns := by
  rw [configure_fst]
  exact ⟨rfl, rfl, rfl, rfl⟩

/-- A driver that never reports connected. -/
def wlanNever : Wlan :=
  { activeFlag := false, isconnSeq := fun _ => false, queries := 0, sleeps := 0,
    connectCalls := [], ifcfg := ⟨"0.0.0.0", "0.0.0.0", "0.0.0.0", "0.0.0.0"⟩,
    setCalls := [], scanResult := [], scanCalls := 0 }

/-- A stored configuration for the never-connecting examples. -/
def cfgNever : StationConfig :=
  { activated := true, wifipassword := "secret", ssid := "unreachable",
    ipaddress := "", netmask := "", gateway := "", dns := "" }

/-- A bound manager attached to the never-connecting driver. -/
def sNever : StationState := ⟨some wlanNever, some cfgNever, []⟩

set_option maxRecDepth 4000 in
/-- C2 counterexample: on a driver that never reports connected,
`connect()` sleeps (polls) 121 times, not 120, before giving up. -/
theorem c2_counterexample_poll_count :
    ((Station.connect none none sNever).toOption.map
        fun p => (p.1, p.2.wlan.map Wlan.sleeps, p.2.wlan.map Wlan.activeFlag))
      = some (false, some 121, some false)
      ∧ ((Station.connect none none sNever).toOption.map
          fun p => (p.1, p.2.wlan.map Wlan.sleeps, p.2.wlan.map Wlan.activeFlag))
        ≠ some (false, some 120, some false) := by
  refine ⟨by decide, by decide⟩

/-- C2 (amended): with a driver that never reports connected, `connect()`
returns false after exactly 121 polling attempts (sleeps of 0.5
time-units, the loop breaking once its counter exceeds 120), having made
123 `isconnected()` queries in total, and the driver ends deactivated. -/
theorem c2_amended_retry_bound (s : StationState) (w : Wlan) (cfg : StationConfig)
    (hw : s.wlan = some w) (hc : s.config = some cfg)
    (hnever : ∀ n, w.isconnSeq n = false) :
    Station.connect none none s =
      .ok (false,
        { s with wlan := some (
          { w with
            queries := w.queries + 123
            sleeps := w.sleeps + 121
            activeFlag := false
            connectCalls :=
              w.connectCalls ++ [(tobytes cfg.ssid, tobytes cfg.wifipassword)] }) }) :=
  connect_never s w cfg hw hc hnever

/-- C2 witness: the amended retry bound evaluated on the concrete
never-connecting manager. -/
theorem c2_amended_retry_bound_witness :
    sNever.wlan = some wlanNever ∧ sNever.config = some cfgNever ∧
      Station.connect none none sNever =
        .ok (false,
          { sNever with wlan := some (
            { wlanNever with
              queries := wlanNever.queries + 123
              sleeps := wlanNever.sleeps + 121
              activeFlag := false
              connectCalls := wlanNever.connectCalls ++
                [(tobytes cfgNever.ssid, tobytes cfgNever.wifipassword)] }) }) :=
  ⟨rfl, rfl, c2_amended_retry_bound sNever wlanNever cfgNever rfl rfl (fun _ => rfl)⟩

/-- C3: `start(force)` returns true iff the manager reached a bound
state: already active is a no-op returning true; load failure returns
false with the state unchanged; a disabled config without force returns
false with the state unchanged (no binding); in every other case the
driver is bound and true is returned, for every driver behavior,
i.e. whether or not the subsequent connection attempt succeeds. -/
theorem c3_start_bound_iff (force : Bool) (load : Option StationConfig) (fresh : Wlan)
    (s : StationState) :
    (Station.isActive s = true → Station.start force load fresh s = .ok (true, s)) ∧
    (Station.isActive s = false → load = none →
      Station.start force load fresh s = .ok (false, s)) ∧
    (Station.isActive s = false → ∀ c, load = some c → c.activated = false → force = false →
      Station.start force load fresh s = .ok (false, s)) ∧
    (Station.isActive s = false → ∀ c, load = some c → (c.activated || force) = true →
      ∃ s2, Station.start force load fresh s = .ok (true, s2) ∧ s2.wlan.isSome = true) := by
  refine ⟨?_, ?_, ?_, ?_⟩
  · intro h
    simp only [Station.start, h]
    rfl
  · intro hA hl
    subst hl
    simp only [Station.start, hA]
    rfl
  · intro hA c hl hact hforce
    subst hl
    subst hforce
    simp only [Station.start, hA, hact]
    rfl
  · intro hA c hl hcf
    subst hl
    simp only [Station.start, hA, hcf]
    obtain ⟨b, w2, hconn⟩ :=
      connect_bound
        { s with
          wlan := some (Station.configure none none none none c fresh).2
          config := some (Station.configure none none none none c fresh).1
          networks := [] }
        (Station.configure none none none none c fresh).2
        (Station.configure none none none none c fresh).1 rfl rfl
    rw [hconn]
    exact ⟨_, rfl, rfl⟩

/-- The unbound initial manager state (`wlan` and `config` both `None`,
empty scan cache). -/
def sUnbound : StationState := ⟨none, none, []⟩

/-- An enabled stored configuration used by the `start` witness. -/
def cfgEnabled : StationConfig :=
  { activated := true, wifipassword := "pw", ssid := "ap",
    ipaddress := "", netmask := "", gateway := "", dns := "" }

/-- C3 witness: starting the unbound manager with an enabled config and
the never-connecting driver still binds and returns true. -/
theorem c3_start_bound_iff_witness :
    Station.isActive sUnbound = false ∧
      (Station.start false (some cfgEnabled) wlanNever sUnbound).toOption.map Prod.fst
        = some true := by
  obtain ⟨s2, h1, h2⟩ :=
    (c3_start_bound_iff false (some cfgEnabled) wlanNever sUnbound).2.2.2
      rfl cfgEnabled rfl rfl
  refine ⟨rfl, ?_⟩
  rw [h1]
  rfl

/-- C4 counterexample: on the unbound manager, `isConnected`, `connect`
and `scan` (with an empty cache) dereference the absent driver handle and
raise instead of reporting false. -/
theorem c4_counterexample_unbound_raises :
    Station.isConnected sUnbound = Except.error ()
      ∧ Station.connect none none sUnbound = Except.error ()
      ∧ Station.scan false sUnbound = Except.error () :=
  ⟨rfl, rfl, rfl⟩

/-- C4 (amended): on an unbound manager, `isActive`, `getInfo` and
`isIpOnInterface` report false/none without raising, while `isConnected`,
`connect`, and `scan` (whenever it needs a rescan) raise; `scan` with a
non-empty cache and no force returns the cache without touching the
absent driver. -/
theorem c4_amended_unbound_behavior (s : StationState) (ip : String)
    (h : s.wlan = none) :
    Station.isActive s = false ∧
      Station.getInfo s = (none, s) ∧
      Station.isIpOnInterface ip s = .ok (false, s) ∧
      Station.isConnected s = .error () ∧
      Station.connect none none s = .error () ∧
      Station.scan true s = .error () ∧
      (s.networks = [] → Station.scan false s = .error ()) ∧
      (s.networks ≠ [] → Station.scan false s = .ok (s.networks, s)) := by
  refine ⟨?_, ?_, ?_, ?_, ?_, ?_, ?_, ?_⟩
  · simp only [Station.isActive, h]
  · simp only [Station.getInfo, h]
  · simp only [Station.isIpOnInterface, Station.getInfo, h]
    rfl
  · simp only [Station.isConnected, h]
    rfl
  · simp only [Station.connect, h, pure_bind]
    rfl
  · simp only [Station.scan, h]
    rfl
  · intro hn
    simp only [Station.scan, hn, h]
    rfl
  · intro hn
    have hfalse : (s.networks.length == 0) = false := by
      simpa using fun hcontra => hn (List.length_eq_zero.mp hcontra)
    simp only [Station.scan, Bool.false_or, hfalse]
    rfl

/-- C4 witness: the amended behavior evaluated on the concrete unbound
state. -/
theorem c4_amended_unbound_behavior_witness :
    sUnbound.wlan = none ∧
      Station.isActive sUnbound = false ∧
      Station.isIpOnInterface "10.0.0.1" sUnbound = .ok (false, sUnbound) :=
  ⟨rfl, (c4_amended_unbound_behavior sUnbound "10.0.0.1" rfl).1,
    (c4_amended_unbound_behavior sUnbound "10.0.0.1" rfl).2.2.1⟩

/-- C5: `configure` pushes a static address assignment to the driver
(`ifconfig` setter) iff all four resolved fields are non-empty; for every
partial resolution the driver state, in particular its address
configuration, is left unchanged. -/
theorem c5_push_iff_all_nonempty (pip pnm pgw pdns : Option String)
    (cfg : StationConfig) (w : Wlan) :
    ((Station.configure pip pnm pgw pdns cfg w).2.setCalls ≠ w.setCalls ↔
      ((Station.configure pip pnm pgw pdns cfg w).1.ipaddress ≠ ""
        ∧ (Station.configure pip pnm pgw pdns cfg w).1.netmask ≠ ""
        ∧ (Station.configure pip pnm pgw pdns cfg w).1.gateway ≠ ""
        ∧ (Station.configure pip pnm pgw pdns cfg w).1.dns ≠ "")) ∧
    (¬((Station.configure pip pnm pgw pdns cfg w).1.ipaddress ≠ ""
        ∧ (Station.configure pip pnm pgw pdns cfg w).1.netmask ≠ ""
        ∧ (Station.configure pip pnm pgw pdns cfg w).1.gateway ≠ ""
        ∧ (Station.configure pip pnm pgw pdns cfg w).1.dns ≠ "") →
      (Station.configure pip pnm pgw pdns cfg w).2 = w) := by
  rw [configure_fst, configure_snd]
  by_cases hall : (resolveConfig pip pnm pgw pdns cfg w).ipaddress ≠ ""
      ∧ (resolveConfig pip pnm pgw pdns cfg w).netmask ≠ ""
      ∧ (resolveConfig pip pnm pgw pdns cfg w).gateway ≠ ""
      ∧ (resolveConfig pip pnm pgw pdns cfg w).dns ≠ ""
  · rw [if_pos hall]
    refine ⟨⟨fun _ => hall, fun _ => ?_⟩, fun hno => absurd hall hno⟩
    simp
  · rw [if_neg hall]
    exact ⟨⟨fun hne => absurd rfl hne, fun hx => absurd hx hall⟩, fun _ => rfl⟩

/-- A partially resolving configuration: the gateway stays empty because
both the stored value and the live driver value are the sentinel. -/
def cfgPartial : StationConfig :=
  { activated := true, wifipassword := "pw", ssid := "ap",
    ipaddress := "10.0.0.2", netmask := "255.0.0.0", gateway := "", dns := "8.8.8.8" }

/-- A driver whose live gateway is the `"0.0.0.0"` sentinel. -/
def wlanZeroGw : Wlan :=
  { activeFlag := true, isconnSeq := fun _ => true, queries := 0, sleeps := 0,
    connectCalls := [],
    ifcfg := ⟨"10.0.0.2", "255.0.0.0", "0.0.0.0", "8.8.8.8"⟩,
    setCalls := [], scanResult := [], scanCalls := 0 }

/-- C5 witness: the partial resolution (gateway empty) leaves the driver
untouched. -/
theorem c5_push_iff_all_nonempty_witness :
    (Station.configure none none none none cfgPartial wlanZeroGw).2 = wlanZeroGw :=
  (c5_push_iff_all_nonempty none none none none cfgPartial wlanZeroGw).2 (by decide)

/-- C6: forced `scan` replaces the cache with the driver list sorted by
descending signal strength, projected to `(ssid, channel, authmode)`; the
sorted list is a permutation of the driver list, is pairwise descending
in `rssi`, and equal-strength networks keep the driver's relative order
(the sublist at each signal strength is preserved). -/
theorem c6_scan_ranking (s : StationState) (w : Wlan) (hw : s.wlan = some w) :
    Station.scan true s =
      .ok ((sortDesc w.scanResult).map (fun n => (n.ssid, n.channel, n.authmode)),
        { s with
          wlan := some ({ w with scanCalls := w.scanCalls + 1 })
          networks := (sortDesc w.scanResult).map fun n => (n.ssid, n.channel, n.authmode) })
      ∧ (sortDesc w.scanResult).Perm w.scanResult
      ∧ (sortDesc w.scanResult).Pairwise (fun a b => b.rssi ≤ a.rssi)
      ∧ ∀ k : Int, (sortDesc w.scanResult).filter (fun n => n.rssi == k)
          = w.scanResult.filter (fun n => n.rssi == k) := by
  refine ⟨?_, sortDesc_perm _, sortDesc_pairwise _, fun k => sortDesc_filter k _⟩
  simp only [Station.scan, hw]
  rfl

/-- A driver observing three networks with strengths -80, -40, -60 in
driver order. -/
def wlanScan3 : Wlan :=
  { activeFlag := true, isconnSeq := fun _ => true, queries := 0, sleeps := 0,
    connectCalls := [], ifcfg := ⟨"", "", "", ""⟩, setCalls := [],
    scanResult :=
      [⟨"weak", "b1", 1, -80, 3, false⟩,
        ⟨"strong", "b2", 6, -40, 3, false⟩,
        ⟨"mid", "b3", 11, -60, 4, true⟩],
    scanCalls := 0 }

/-- The manager bound to the three-network driver. -/
def sScan3 : StationState := ⟨some wlanScan3, none, []⟩

/-- C6 witness: with strengths [-80, -40, -60] the forced scan returns
the -40 network first, then -60, then -80, projected without bssid and
hidden flags. -/
theorem c6_scan_ranking_witness :
    sScan3.wlan = some wlanScan3 ∧
      (Station.scan true sScan3).toOption.map Prod.fst
        = some [("strong", 6, 3), ("mid", 11, 4), ("weak", 1, 3)] := by
  refine ⟨rfl, ?_⟩
  rw [(c6_scan_ranking sScan3 wlanScan3 rfl).1]
  rfl

/-- C7: with a non-empty cache, `scan(force=false)` returns the cache and
leaves the state unchanged (no driver scan); hence a second
`scan(force=false)` returns the identical result with the driver's scan
never invoked across the two calls. -/
theorem c7_scan_cache (s : StationState) (h : s.networks ≠ []) :
    Station.scan false s = .ok (s.networks, s) ∧
      (Station.scan false s).bind (fun r => Station.scan false r.2)
        = .ok (s.networks, s) := by
  have hfalse : (s.networks.length == 0) = false := by
    simpa using fun hcontra => h (List.length_eq_zero.mp hcontra)
  have h1 : Station.scan false s = .ok (s.networks, s) := by
    simp only [Station.scan, Bool.false_or, hfalse]
    rfl
  refine ⟨h1, ?_⟩
  rw [h1]
  exact h1

/-- A manager state with a one-entry scan cache (the driver may even be
absent: the cache path never touches it). -/
def sCached : StationState := ⟨none, none, [("cached", 1, 0)]⟩

/-- C7 witness: the cached state returns its cache unchanged. -/
theorem c7_scan_cache_witness :
    sCached.networks ≠ [] ∧ Station.scan false sCached = .ok (sCached.networks, sCached) :=
  ⟨by decide, (c7_scan_cache sCached (by decide)).1⟩

/-- C8: when the manager has a live connected interface,
`isIpOnInterface(candidate)` compares `candidate & netmask` with
`interfaceIp & netmask` under the 32-bit big-endian reading of the dotted
quads; with no live address (unbound or not connected) it returns
false. -/
theorem c8_subnet_check (s : StationState) (w : Wlan) (cand : String) (a i m : Nat) :
    (s.wlan = none → Station.isIpOnInterface cand s = .ok (false, s)) ∧
    (s.wlan = some w → w.isconnSeq w.queries = false →
      Station.isIpOnInterface cand s
        = .ok (false, { s with wlan := some ({ w with queries := w.queries + 1 }) })) ∧
    (s.wlan = some w → w.isconnSeq w.queries = true →
      iptoint cand = some a → iptoint w.ifcfg.ip = some i →
      iptoint w.ifcfg.netmask = some m →
      Station.isIpOnInterface cand s
        = .ok (if a &&& m = i &&& m then true else false,
            { s with wlan := some ({ w with queries := w.queries + 1 }) })) := by
  refine ⟨?_, ?_, ?_⟩
  · intro h
    simp only [Station.isIpOnInterface, Station.getInfo, h]
    rfl
  · intro hw hcn
    simp only [Station.isIpOnInterface, Station.getInfo, hw, Wlan.isconnected, hcn]
    rw [if_neg Bool.false_ne_true]
    rfl
  · intro hw hcn ha hi hm
    simp only [Station.isIpOnInterface, Station.getInfo, hw, Wlan.isconnected, hcn,
      if_true, issameinterface, tostrings, ha, hi, hm]
    rfl

/-- A connected manager on the 192.168.1.0/24 interface. -/
def wlanHome : Wlan :=
  { activeFlag := true, isconnSeq := fun _ => true, queries := 0, sleeps := 0,
    connectCalls := [],
    ifcfg := ⟨"192.168.1.1", "255.255.255.0", "192.168.1.254", "8.8.8.8"⟩,
    setCalls := [], scanResult := [], scanCalls := 0 }

/-- The manager state bound to the home interface. -/
def sHome : StationState := ⟨some wlanHome, none, []⟩

/-- C8 witness: `192.168.1.10` is on the interface, `10.0.0.5` is not. -/
theorem c8_subnet_check_witness :
    sHome.wlan = some wlanHome ∧ wlanHome.isconnSeq wlanHome.queries = true ∧
      (Station.isIpOnInterface "192.168.1.10" sHome).toOption.map Prod.fst = some true ∧
      (Station.isIpOnInterface "10.0.0.5" sHome).toOption.map Prod.fst = some false := by
  refine ⟨rfl, rfl, ?_, ?_⟩
  · rw [(c8_subnet_check sHome wlanHome "192.168.1.10" 3232235786 3232235777
      4294967040).2.2 rfl rfl (by decide) (by decide) (by decide)]
    decide
  · rw [(c8_subnet_check sHome wlanHome "10.0.0.5" 167772165 3232235777
      4294967040).2.2 rfl rfl (by decide) (by decide) (by decide)]
    decide

/-- C9: two configurations that differ only in the credential render
identically (the credential never reaches the rendering), while the ssid
and the activation flag do appear in the rendered text. -/
theorem c9_credential_omitted (w : Wlan) (c1 c2 : StationConfig)
    (hact : c1.activated = c2.activated) (hssid : c1.ssid = c2.ssid)
    (_hip : c1.ipaddress = c2.ipaddress) (_hnm : c1.netmask = c2.netmask)
    (_hgw : c1.gateway = c2.gateway) (_hdns : c1.dns = c2.dns) :
    StationConfig.reprStr w c1 = StationConfig.reprStr w c2
      ∧ (∃ pre post, StationConfig.reprStr w c1 = pre ++ (tostrings c1.ssid ++ post))
      ∧ (∃ pre post, StationConfig.reprStr w c1
          = pre ++ (pyBoolStr c1.activated ++ post)) := by
  refine ⟨?_, ?_, ?_⟩
  · simp only [StationConfig.reprStr, hssid, hact]
  · refine ⟨"StationConfig:\n" ++ ("   Ip address :" ++ (w.ifcfg.ip
      ++ ("\n   Netmask    :" ++ (w.ifcfg.netmask
      ++ ("\n   Gateway    :" ++ (w.ifcfg.gateway
      ++ ("\n   Dns        :" ++ (w.ifcfg.dns
      ++ "\n   Ssid       :")))))))),
      "\n   Activated  :" ++ (pyBoolStr c1.activated ++ "\n"), ?_⟩
    simp [StationConfig.reprStr, String.append_assoc]
  · refine ⟨"StationConfig:\n" ++ ("   Ip address :" ++ (w.ifcfg.ip
      ++ ("\n   Netmask    :" ++ (w.ifcfg.netmask
      ++ ("\n   Gateway    :" ++ (w.ifcfg.gateway
      ++ ("\n   Dns        :" ++ (w.ifcfg.dns
      ++ ("\n   Ssid       :" ++ (tostrings c1.ssid
      ++ "\n   Activated  :")))))))))),
      "\n", ?_⟩
    simp [StationConfig.reprStr, String.append_assoc]

/-- Two configurations differing only in the credential. -/
def cfgSecretA : StationConfig :=
  { activated := true, wifipassword := "hunter2", ssid := "home",
    ipaddress := "", netmask := "", gateway := "", dns := "" }

/-- The same configuration with a different credential. -/
def cfgSecretB : StationConfig := { cfgSecretA with wifipassword := "different" }

/-- C9 witness: the two credential-differing configurations render the
same text on the home driver. -/
theorem c9_credential_omitted_witness :
    cfgSecretA.wifipassword ≠ cfgSecretB.wifipassword ∧
      StationConfig.reprStr wlanHome cfgSecretA = StationConfig.reprStr wlanHome cfgSecretB :=
  ⟨by decide,
    (c9_credential_omitted wlanHome cfgSecretA cfgSecretB rfl rfl rfl rfl rfl rfl).1⟩

/-- C10: with an empty cache, `scan(force=false)` always performs a fresh
driver scan; in particular after a scan in which the driver reported zero
networks, the next `scan(force=false)` scans again (two driver
invocations across the two calls). -/
theorem c10_empty_cache_rescans (s : StationState) (w : Wlan)
    (hw : s.wlan = some w) (hn : s.networks = []) :
    Station.scan false s =
      .ok ((sortDesc w.scanResult).map (fun n => (n.ssid, n.channel, n.authmode)),
        { s with
          wlan := some ({ w with scanCalls := w.scanCalls + 1 })
          networks := (sortDesc w.scanResult).map fun n => (n.ssid, n.channel, n.authmode) })
      ∧ (w.scanResult = [] →
        (Station.scan false s).bind (fun r => Station.scan false r.2)
          = .ok ([],
            { s with
              wlan := some ({ w with scanCalls := w.scanCalls + 1 + 1 })
              networks := [] })) := by
  have h1 : Station.scan false s =
      .ok ((sortDesc w.scanResult).map (fun n => (n.ssid, n.channel, n.authmode)),
        { s with
          wlan := some ({ w with scanCalls := w.scanCalls + 1 })
          networks := (sortDesc w.scanResult).map fun n => (n.ssid, n.channel, n.authmode) }) := by
    simp only [Station.scan, hn, hw]
    rfl
  refine ⟨h1, fun hsr => ?_⟩
  rw [h1]
  show Station.scan false
      { s with
        wlan := some ({ w with scanCalls := w.scanCalls + 1 })
        networks := (sortDesc w.scanResult).map fun n => (n.ssid, n.channel, n.authmode) }
    = _
  simp only [Station.scan, hsr]
  rfl

/-- A bound driver that observes zero networks. -/
def wlanEmptyScan : Wlan :=
  { activeFlag := true, isconnSeq := fun _ => true, queries := 0, sleeps := 0,
    connectCalls := [], ifcfg := ⟨"", "", "", ""⟩, setCalls := [],
    scanResult := [], scanCalls := 0 }

/-- A bound manager with an empty scan cache. -/
def sEmptyCache : StationState := ⟨some wlanEmptyScan, none, []⟩

/-- C10 witness: two unforced scans on the zero-network driver invoke the
driver twice. -/
theorem c10_empty_cache_rescans_witness :
    sEmptyCache.wlan = some wlanEmptyScan ∧ sEmptyCache.networks = [] ∧
      (Station.scan false sEmptyCache).bind (fun r => Station.scan false r.2)
        = .ok ([],
          { sEmptyCache with
            wlan := some ({ wlanEmptyScan with
              scanCalls := wlanEmptyScan.scanCalls + 1 + 1 })
            networks := [] }) :=
  ⟨rfl, rfl, (c10_empty_cache_rescans sEmptyCache wlanEmptyScan rfl rfl).2 rfl⟩
